import Mathlib

/-!
Shallow embedding of the `reddit-api-client` repository (a thin read-only
Reddit client) and proofs about its spec.

The embedded parts are:
- `src/reddit_client/config.py`: `Config`, `Config.from_env`,
  `Config.is_authenticated`. The process environment after `load_dotenv`
  is modelled as an `Env` record of the five variables the module reads;
  a variable that is unset is `none`. Raising `ValueError` is modelled
  as `Except.error`.
- `src/reddit_client/api_client.py`: the pure data transforms
  `_format_submission`, `_format_comment`, the aggregation in
  `get_subreddit_stats` (over an already-fetched batch), and the
  comment-collection loop of `get_post_comments` (over an
  already-fetched flat comment listing). Network access (PRAW) is outside
  the repository; fetched objects are inputs here. Python dictionaries
  whose key set varies are modelled as association lists in insertion
  order; `datetime...isoformat()` is passed in as a formatting function /
  an opaque timestamp string, since its value is environmental.
- the three example scripts' output-filename expressions.
-/

namespace RedditClient

/-- Python truthiness of an `Optional[str]` value: `None` and the empty
string are falsy, every other string is truthy. -/
def truthyStr : Option String → Bool
  | none => false
  | some s => s != ""

/-- The five environment variables read by `Config.from_env`, as they stand
after `load_dotenv` has run. `none` models an unset variable; `some ""`
models a variable that is set to the empty string. -/
structure Env where
  REDDIT_CLIENT_ID : Option String
  REDDIT_CLIENT_SECRET : Option String
  REDDIT_USER_AGENT : Option String
  REDDIT_USERNAME : Option String
  REDDIT_PASSWORD : Option String

/-- The `Config` dataclass of `config.py`. -/
structure Config where
  client_id : String
  client_secret : String
  user_agent : String
  username : Option String := none
  password : Option String := none

/-- The `ValueError` message raised by `Config.from_env`. -/
def configErrorMsg : String :=
  "Missing required environment variables: REDDIT_CLIENT_ID and REDDIT_CLIENT_SECRET must be set"

/-- `Config.from_env` of `config.py`: reads the two mandatory credentials,
the user agent (with its default), and the optional username/password;
raises (`Except.error`) when `not client_id or not client_secret`, which
under Python truthiness fires when either is unset or set to the empty
string. No network activity occurs anywhere in this function. -/
def Config.from_env (env : Env) : Except String Config :=
  let client_id := env.REDDIT_CLIENT_ID
  let client_secret := env.REDDIT_CLIENT_SECRET
  let user_agent := env.REDDIT_USER_AGENT.getD "reddit-api-client/1.0"
  if !truthyStr client_id || !truthyStr client_secret then
    Except.error configErrorMsg
  else
    Except.ok {
      client_id := client_id.getD ""
      client_secret := client_secret.getD ""
      user_agent := user_agent
      username := env.REDDIT_USERNAME
      password := env.REDDIT_PASSWORD }

/-- `Config.is_authenticated`: `bool(self.username and self.password)`,
i.e. both optional credentials are set and non-empty. -/
def Config.is_authenticated (c : Config) : Bool :=
  truthyStr c.username && truthyStr c.password

/-- An environment in which both mandatory credentials are present (set),
but `REDDIT_CLIENT_ID` is set to the empty string. -/
def envC1 : Env :=
  { REDDIT_CLIENT_ID := some ""
    REDDIT_CLIENT_SECRET := some "secret-value"
    REDDIT_USER_AGENT := none
    REDDIT_USERNAME := none
    REDDIT_PASSWORD := none }

/-- A `Config` in which both optional credentials are present (set), but
the username is the empty string. -/
def cfgC2 : Config :=
  { client_id := "id-value"
    client_secret := "secret-value"
    user_agent := "reddit-api-client/1.0"
    username := some ""
    password := some "pw-value" }

/-- C1 (counterexample): an environment in which both `REDDIT_CLIENT_ID`
and `REDDIT_CLIENT_SECRET` are present — `REDDIT_CLIENT_ID` is set to the
empty string — yet `Config.from_env` raises the configuration error rather
than returning a `Config`. -/
theorem C1_counterexample :
    envC1.REDDIT_CLIENT_ID.isSome = true ∧
    envC1.REDDIT_CLIENT_SECRET.isSome = true ∧
    Config.from_env envC1 = Except.error configErrorMsg :=
  ⟨rfl, rfl, rfl⟩

/-- C1 (amended): `Config.from_env` returns a `Config` exactly when both
`REDDIT_CLIENT_ID` and `REDDIT_CLIENT_SECRET` are present and non-empty,
and raises the configuration error (before any network activity — the
function performs none) exactly when either is missing or empty. -/
theorem C1_amended_thm (env : Env) :
    ((∃ c, Config.from_env env = Except.ok c) ↔
      (truthyStr env.REDDIT_CLIENT_ID = true ∧
       truthyStr env.REDDIT_CLIENT_SECRET = true)) ∧
    (Config.from_env env = Except.error configErrorMsg ↔
      ¬ (truthyStr env.REDDIT_CLIENT_ID = true ∧
         truthyStr env.REDDIT_CLIENT_SECRET = true)) := by
  unfold Config.from_env
  by_cases h1 : truthyStr env.REDDIT_CLIENT_ID = true <;>
    by_cases h2 : truthyStr env.REDDIT_CLIENT_SECRET = true <;>
      simp [h1, h2]

/-- C2 (counterexample): a `Config` in which both optional credentials are
present — the username is set to the empty string — yet `is_authenticated`
returns `false`. -/
theorem C2_counterexample :
    cfgC2.username.isSome = true ∧
    cfgC2.password.isSome = true ∧
    Config.is_authenticated cfgC2 = false :=
  ⟨rfl, rfl, rfl⟩

/-- C2 (amended): `is_authenticated` returns `true` iff both optional
credentials are present and non-empty, and its result depends only on the
`username` and `password` fields. -/
theorem C2_amended_thm (c : Config) :
    (Config.is_authenticated c = true ↔
      ((∃ u, c.username = some u ∧ u ≠ "") ∧
       (∃ p, c.password = some p ∧ p ≠ ""))) ∧
    ∀ c2 : Config, c.username = c2.username → c.password = c2.password →
      Config.is_authenticated c = Config.is_authenticated c2 := by
  constructor
  · cases hu : c.username <;> cases hp : c.password <;>
      simp [Config.is_authenticated, truthyStr, hu, hp]
  · intro c2 h1 h2
    simp [Config.is_authenticated, h1, h2]

/-- C10: empty-string credentials behave as absent: `Config.from_env`
raises the configuration error whenever `REDDIT_CLIENT_ID` or
`REDDIT_CLIENT_SECRET` is set to the empty string, and `is_authenticated`
returns `false` whenever `username` or `password` is set to the empty
string. -/
theorem C10_thm (env : Env) (c : Config) :
    (env.REDDIT_CLIENT_ID = some "" →
      Config.from_env env = Except.error configErrorMsg) ∧
    (env.REDDIT_CLIENT_SECRET = some "" →
      Config.from_env env = Except.error configErrorMsg) ∧
    (c.username = some "" → Config.is_authenticated c = false) ∧
    (c.password = some "" → Config.is_authenticated c = false) := by
  refine ⟨?_, ?_, ?_, ?_⟩
  · intro h
    simp [Config.from_env, truthyStr, h]
  · intro h
    simp [Config.from_env, truthyStr, h]
  · intro h
    simp [Config.is_authenticated, truthyStr, h]
  · intro h
    simp [Config.is_authenticated, truthyStr, h]

/-- The fields `_format_submission` reads off a PRAW `Submission` object.
`author` is `none` for a deleted author, otherwise the string form of the
author object (PRAW author objects are truthy whenever non-`None`).
`created_utc` is the raw Unix timestamp (a real number in Python). -/
structure Submission where
  id : String
  title : String
  author : Option String
  score : Int
  upvote_ratio : Rat
  num_comments : Int
  created_utc : Rat
  url : String
  permalink : String
  is_self : Bool
  selftext : String
  link_flair_text : Option String
  subreddit : String
  over_18 : Bool
  spoiler : Bool
  stickied : Bool

/-- The dictionary built by `_format_submission` (its key set is fixed, so
a record is a faithful model). -/
structure PostRecord where
  id : String
  title : String
  author : String
  score : Int
  upvote_ratio : Rat
  num_comments : Int
  created_utc : String
  url : String
  permalink : String
  is_self : Bool
  selftext : Option String
  link_flair_text : Option String
  subreddit : String
  is_over18 : Bool
  spoiler : Bool
  stickied : Bool

/-- `_format_submission` of `api_client.py`. `fmtTime` stands for
`datetime.fromtimestamp(.).isoformat()`, a library function external to
the repository. -/
def format_submission (fmtTime : Rat → String) (s : Submission) : PostRecord :=
  { id := s.id
    title := s.title
    author := match s.author with
      | some a => a
      | none => "[deleted]"
    score := s.score
    upvote_ratio := s.upvote_ratio
    num_comments := s.num_comments
    created_utc := fmtTime s.created_utc
    url := s.url
    permalink := "https://reddit.com" ++ s.permalink
    is_self := s.is_self
    selftext := if s.is_self then some s.selftext else none
    link_flair_text := s.link_flair_text
    subreddit := s.subreddit
    is_over18 := s.over_18
    spoiler := s.spoiler
    stickied := s.stickied }

/-- The fields `_format_comment` reads off a PRAW `Comment` object. -/
structure Comment where
  id : String
  author : Option String
  body : String
  score : Int
  created_utc : Rat
  permalink : String
  is_submitter : Bool
  parent_id : String
  depth : Int

/-- The dictionary built by `_format_comment`. -/
structure CommentRecord where
  id : String
  author : String
  body : String
  score : Int
  created_utc : String
  permalink : String
  is_submitter : Bool
  parent_id : String
  depth : Int

/-- `_format_comment` of `api_client.py`. -/
def format_comment (fmtTime : Rat → String) (c : Comment) : CommentRecord :=
  { id := c.id
    author := match c.author with
      | some a => a
      | none => "[deleted]"
    body := c.body
    score := c.score
    created_utc := fmtTime c.created_utc
    permalink := "https://reddit.com" ++ c.permalink
    is_submitter := c.is_submitter
    parent_id := c.parent_id
    depth := c.depth }

/-- The values occurring in the dictionary returned by
`get_subreddit_stats`: Python ints, floats produced by `/` (modelled
exactly as rationals), and the timestamp string. -/
inductive StatValue where
  | int (n : Int)
  | rat (q : Rat)
  | str (s : String)
deriving DecidableEq

/-- `get_subreddit_stats` of `api_client.py`, applied to the batch of
already-fetched and formatted posts (`self.get_hot_posts(...)` performs
the fetch; the aggregation below is the repository's own computation).
The returned dictionary is modelled as an association list in insertion
order because its key set differs between the two branches. `now` stands
for `datetime.now().isoformat()`. -/
def get_subreddit_stats (now : String) (posts : List PostRecord) :
    List (String × StatValue) :=
  if posts.isEmpty then
    [("total_posts", StatValue.int 0),
     ("total_score", StatValue.int 0),
     ("total_comments", StatValue.int 0),
     ("average_score", StatValue.int 0),
     ("average_comments", StatValue.int 0)]
  else
    let total_score := (posts.map PostRecord.score).sum
    let total_comments := (posts.map PostRecord.num_comments).sum
    [("total_posts", StatValue.int posts.length),
     ("total_score", StatValue.int total_score),
     ("total_comments", StatValue.int total_comments),
     ("average_score", StatValue.rat ((total_score : Rat) / (posts.length : Rat))),
     ("average_comments", StatValue.rat ((total_comments : Rat) / (posts.length : Rat))),
     ("analyzed_time", StatValue.str now)]

/-- C3: on the empty batch, `get_subreddit_stats` returns the literal
all-zero record — `total_posts`, `total_score`, `total_comments`,
`average_score` and `average_comments` all zero — and every value in the
returned record is the integer zero, so no quotient (no `StatValue.rat`)
occurs: the division-by-count branch is not taken. -/
theorem C3_thm (now : String) :
    get_subreddit_stats now [] =
      [("total_posts", StatValue.int 0),
       ("total_score", StatValue.int 0),
       ("total_comments", StatValue.int 0),
       ("average_score", StatValue.int 0),
       ("average_comments", StatValue.int 0)] ∧
    ∀ kv ∈ get_subreddit_stats now [], kv.2 = StatValue.int 0 := by
  refine ⟨rfl, ?_⟩
  intro kv hkv
  simp only [get_subreddit_stats, List.isEmpty_nil, if_true, List.mem_cons,
    List.not_mem_nil, or_false] at hkv
  rcases hkv with h | h | h | h | h <;> simp [h]

/-- A concrete formatted post, used to instantiate batch hypotheses. -/
def samplePost : PostRecord :=
  { id := "p1"
    title := "a title"
    author := "alice"
    score := 6
    upvote_ratio := 1/2
    num_comments := 4
    created_utc := "2020-01-01T00:00:00"
    url := "https://example.org"
    permalink := "https://reddit.com/r/x/p1"
    is_self := true
    selftext := some "body text"
    link_flair_text := none
    subreddit := "x"
    is_over18 := false
    spoiler := false
    stickied := false }

/-- C4: on a non-empty batch, `get_subreddit_stats` reports the batch
length, the sums of the `score` and `num_comments` fields, and the two
averages computed as sum divided by length; multiplying each average back
by the length recovers the sum, i.e. the quotient is the exact arithmetic
mean of the field. -/
theorem C4_thm (now : String) (posts : List PostRecord) (h : posts ≠ []) :
    (get_subreddit_stats now posts).lookup "total_posts"
      = some (StatValue.int posts.length) ∧
    (get_subreddit_stats now posts).lookup "total_score"
      = some (StatValue.int (posts.map PostRecord.score).sum) ∧
    (get_subreddit_stats now posts).lookup "total_comments"
      = some (StatValue.int (posts.map PostRecord.num_comments).sum) ∧
    (get_subreddit_stats now posts).lookup "average_score"
      = some (StatValue.rat
          (((posts.map PostRecord.score).sum : Rat) / (posts.length : Rat))) ∧
    (get_subreddit_stats now posts).lookup "average_comments"
      = some (StatValue.rat
          (((posts.map PostRecord.num_comments).sum : Rat) / (posts.length : Rat))) ∧
    (((posts.map PostRecord.score).sum : Rat) / (posts.length : Rat))
        * (posts.length : Rat)
      = ((posts.map PostRecord.score).sum : Rat) ∧
    (((posts.map PostRecord.num_comments).sum : Rat) / (posts.length : Rat))
        * (posts.length : Rat)
      = ((posts.map PostRecord.num_comments).sum : Rat) := by
  have hne : posts.isEmpty = false := by
    cases posts with
    | nil => exact absurd rfl h
    | cons a as => rfl
  have hlen : (posts.length : Rat) ≠ 0 := by
    have : posts.length ≠ 0 := fun hz => h (List.length_eq_zero.mp hz)
    exact_mod_cast this
  refine ⟨?_, ?_, ?_, ?_, ?_, ?_, ?_⟩
  · simp [get_subreddit_stats, hne, List.lookup]
  · simp [get_subreddit_stats, hne, List.lookup]
  · simp [get_subreddit_stats, hne, List.lookup]
  · simp [get_subreddit_stats, hne, List.lookup]
  · simp [get_subreddit_stats, hne, List.lookup]
  · exact div_mul_cancel₀ _ hlen
  · exact div_mul_cancel₀ _ hlen

/-- Witness for C4: the one-post batch `[samplePost]` is non-empty and the
statistics over it come out as the theorem states. -/
theorem C4_witness :
    (get_subreddit_stats "2024-01-01T00:00:00" [samplePost]).lookup "total_posts"
      = some (StatValue.int 1) ∧
    (get_subreddit_stats "2024-01-01T00:00:00" [samplePost]).lookup "average_score"
      = some (StatValue.rat 6) := by
  have h := C4_thm "2024-01-01T00:00:00" [samplePost] (List.cons_ne_nil _ _)
  exact ⟨h.1, by simpa using h.2.2.2.1⟩

/-- C5 (counterexample): on the empty batch, the record returned by
`get_subreddit_stats` has no `analyzed_time` key — the computation
timestamp field is missing. -/
theorem C5_counterexample :
    (get_subreddit_stats "2024-01-01T00:00:00" []).lookup "analyzed_time" = none :=
  rfl

/-- C5 (amended): the statistics record always contains the count, the
sums and the means of score and comment count; the computation timestamp
field `analyzed_time` is present exactly on non-empty batches and holds
the time of computation. -/
theorem C5_amended_thm (now : String) (posts : List PostRecord) :
    ((get_subreddit_stats now posts).lookup "total_posts").isSome = true ∧
    ((get_subreddit_stats now posts).lookup "total_score").isSome = true ∧
    ((get_subreddit_stats now posts).lookup "total_comments").isSome = true ∧
    ((get_subreddit_stats now posts).lookup "average_score").isSome = true ∧
    ((get_subreddit_stats now posts).lookup "average_comments").isSome = true ∧
    (get_subreddit_stats now posts).lookup "analyzed_time"
      = (if posts.isEmpty then none else some (StatValue.str now)) := by
  cases posts with
  | nil => refine ⟨rfl, rfl, rfl, rfl, rfl, rfl⟩
  | cons a as =>
    refine ⟨?_, ?_, ?_, ?_, ?_, ?_⟩ <;>
      simp [get_subreddit_stats, List.lookup]

/-- C6: both formatting helpers set `author` to the sentinel `"[deleted]"`
when the source object's author is `None`, and to the string form of the
author otherwise. -/
theorem C6_thm (fmtTime : Rat → String) (s : Submission) (c : Comment) :
    (format_submission fmtTime s).author = s.author.getD "[deleted]" ∧
    (format_comment fmtTime c).author = c.author.getD "[deleted]" := by
  constructor
  · cases ha : s.author <;> simp [format_submission, ha]
  · cases ha : c.author <;> simp [format_comment, ha]

/-- C8: the `selftext` field of a formatted post is `none` unless the
submission is a self-post, in which case it is the submission's selftext. -/
theorem C8_thm (fmtTime : Rat → String) (s : Submission) :
    (format_submission fmtTime s).selftext
      = (if s.is_self then some s.selftext else none) :=
  rfl

/-- Python truthiness of the `Optional[int]` limit of `get_post_comments`:
`None` and `0` are falsy. -/
def truthyInt : Option Int → Bool
  | none => false
  | some n => n != 0

/-- One entry of the flat comment listing `submission.comments.list()`:
either a real comment (it has a `body` attribute) or a `MoreComments`
placeholder (it does not). -/
inductive CommentTreeEntry where
  | comment (c : Comment)
  | more

/-- The `hasattr(comment, 'body')` test of `get_post_comments`. -/
def hasBody : CommentTreeEntry → Bool
  | .comment _ => true
  | .more => false

/-- The real comments of a listing, in listing order. -/
def realComments : List CommentTreeEntry → List Comment
  | [] => []
  | .comment c :: rest => c :: realComments rest
  | .more :: rest => realComments rest

/-- The `for comment in submission.comments.list()` loop of
`get_post_comments`, with its accumulating `comments` list: placeholders
are skipped; after appending a formatted comment the loop breaks when
`limit and len(comments) >= limit` holds (Python truthiness: a `None` or
`0` limit never breaks). -/
def commentsLoop (fmtTime : Rat → String) (limit : Option Int) :
    List CommentTreeEntry → List CommentRecord → List CommentRecord
  | [], acc => acc
  | .more :: rest, acc => commentsLoop fmtTime limit rest acc
  | .comment c :: rest, acc =>
    let acc2 := acc ++ [format_comment fmtTime c]
    if truthyInt limit = true ∧ limit.getD 0 ≤ (acc2.length : Int) then acc2
    else commentsLoop fmtTime limit rest acc2

/-- `get_post_comments` of `api_client.py`, applied to the already-fetched
flat comment listing of the post. When the limit is truthy the code first
calls `replace_more(limit=0)`, which removes every `MoreComments`
placeholder from the listing without fetching; that call is modelled as
filtering the listing to its real comments. -/
def get_post_comments (fmtTime : Rat → String) (listing : List CommentTreeEntry)
    (limit : Option Int) : List CommentRecord :=
  let listing2 := if truthyInt limit then listing.filter hasBody else listing
  commentsLoop fmtTime limit listing2 []

theorem realComments_filter (l : List CommentTreeEntry) :
    realComments (l.filter hasBody) = realComments l := by
  induction l with
  | nil => rfl
  | cons e rest ih =>
    cases e with
    | comment c => simp [List.filter_cons, hasBody, realComments, ih]
    | more => simp [List.filter_cons, hasBody, realComments, ih]

theorem commentsLoop_no_limit (fmtTime : Rat → String) (limit : Option Int)
    (hl : truthyInt limit = false) (l : List CommentTreeEntry)
    (acc : List CommentRecord) :
    commentsLoop fmtTime limit l acc
      = acc ++ (realComments l).map (format_comment fmtTime) := by
  induction l generalizing acc with
  | nil => simp [commentsLoop, realComments]
  | cons e rest ih =>
    cases e with
    | more => simp [commentsLoop, realComments, ih]
    | comment c =>
      simp only [commentsLoop, hl, Bool.false_eq_true, false_and, if_false]
      rw [ih (acc ++ [format_comment fmtTime c])]
      simp [realComments]

theorem commentsLoop_pos (fmtTime : Rat → String) (n : ℕ) (hn : 0 < n)
    (l : List CommentTreeEntry) (acc : List CommentRecord)
    (hacc : acc.length < n) :
    commentsLoop fmtTime (some (n : Int)) l acc
      = acc ++ ((realComments l).map (format_comment fmtTime)).take (n - acc.length) := by
  induction l generalizing acc with
  | nil => simp [commentsLoop, realComments]
  | cons e rest ih =>
    cases e with
    | more =>
      simpa [commentsLoop, realComments] using ih acc hacc
    | comment c =>
      simp only [commentsLoop]
      by_cases hc : n ≤ acc.length + 1
      · have h1 : truthyInt (some (n : Int)) = true := by
          simp [truthyInt]
          omega
        have h2 : (some (n : Int)).getD 0
            ≤ (((acc ++ [format_comment fmtTime c]).length : ℕ) : Int) := by
          simp
          omega
        rw [if_pos ⟨h1, h2⟩]
        have hn1 : n - acc.length = 1 := by omega
        simp [realComments, hn1]
      · have hneg : ¬ (truthyInt (some (n : Int)) = true ∧
            (some (n : Int)).getD 0
              ≤ (((acc ++ [format_comment fmtTime c]).length : ℕ) : Int)) := by
          rintro ⟨-, h2⟩
          simp at h2
          omega
        rw [if_neg hneg]
        have hacc2 : (acc ++ [format_comment fmtTime c]).length < n := by
          simp
          omega
        rw [ih (acc ++ [format_comment fmtTime c]) hacc2]
        simp only [realComments, List.map_cons, List.length_append,
          List.length_cons, List.length_nil, List.append_assoc,
          List.singleton_append]
        obtain ⟨m, hm⟩ : ∃ m, n - acc.length = m + 1 :=
          ⟨n - acc.length - 1, by omega⟩
        have hm2 : n - (acc.length + (0 + 1)) = m := by omega
        rw [hm, hm2, List.take_succ_cons]

/-- A concrete real comment, used in concrete listings. -/
def sampleComment : Comment :=
  { id := "c1"
    author := some "alice"
    body := "hello"
    score := 1
    created_utc := 0
    permalink := "/r/x/c1"
    is_submitter := false
    parent_id := "t3_p1"
    depth := 0 }

/-- C7 (counterexample): with requested limit `0` and a listing holding
one real comment, `get_post_comments` returns that one comment — not
`min(limit, number of real comments) = 0` comments as the claim states:
Python's `if limit:` treats a zero limit as "no limit". -/
theorem C7_counterexample :
    (get_post_comments (fun _ => "1970-01-01T00:00:00")
        [CommentTreeEntry.comment sampleComment] (some 0)).length = 1 ∧
    min 0 (realComments [CommentTreeEntry.comment sampleComment]).length = 0 :=
  ⟨rfl, rfl⟩

/-- C7 (amended): `get_post_comments` returns only formatted real
comments, skipping every placeholder, in listing order. For every
positive requested limit it stops once the limit is reached, returning
exactly `min(limit, number of real comments)` entries; when the limit is
`None` or `0` (both falsy in Python) it returns all real comments. -/
theorem C7_amended_thm (fmtTime : Rat → String) (listing : List CommentTreeEntry) :
    (∀ k : Int, 0 < k →
      get_post_comments fmtTime listing (some k)
        = ((realComments listing).map (format_comment fmtTime)).take k.toNat ∧
      (get_post_comments fmtTime listing (some k)).length
        = min k.toNat (realComments listing).length) ∧
    get_post_comments fmtTime listing none
      = (realComments listing).map (format_comment fmtTime) ∧
    get_post_comments fmtTime listing (some 0)
      = (realComments listing).map (format_comment fmtTime) := by
  refine ⟨?_, ?_, ?_⟩
  · intro k hk
    have hk0 : (0 : ℕ) < k.toNat := by omega
    have hksome : ((k.toNat : ℕ) : Int) = k := Int.toNat_of_nonneg (le_of_lt hk)
    have htr : truthyInt (some k) = true := by
      simp [truthyInt]
      omega
    have heq : get_post_comments fmtTime listing (some k)
        = ((realComments listing).map (format_comment fmtTime)).take k.toNat := by
      unfold get_post_comments
      rw [htr, if_pos rfl, ← hksome,
        commentsLoop_pos fmtTime k.toNat hk0 (listing.filter hasBody) [] (by simpa using hk0)]
      simp [realComments_filter]
      omega
    refine ⟨heq, ?_⟩
    rw [heq]
    simp [List.length_take]
  · unfold get_post_comments
    have : truthyInt (none : Option Int) = false := rfl
    rw [this]
    simpa using commentsLoop_no_limit fmtTime none rfl listing []
  · unfold get_post_comments
    have : truthyInt (some (0 : Int)) = false := rfl
    rw [this]
    simpa using commentsLoop_no_limit fmtTime (some 0) rfl listing []

/-- Python `str.replace(" ", "_")`: with a one-character pattern and a
one-character replacement this replaces every space character by an
underscore. -/
def replaceSpaces (s : String) : String :=
  String.mk (s.data.map (fun ch => if ch = ' ' then '_' else ch))

/-- The output filename of `examples/search_posts.py`:
`f"..."` interpolation of the subreddit name verbatim and the query with
its spaces replaced. -/
def search_output_file (subreddit_name : String) (query : String) : String :=
  subreddit_name ++ "_search_" ++ replaceSpaces query ++ ".json"

/-- The output filename of `examples/fetch_hot_posts.py`. -/
def hot_output_file (subreddit_name : String) : String :=
  subreddit_name ++ "_hot_posts.json"

/-- The output filename of `examples/fetch_subreddit_stats.py`. -/
def stats_output_file (subreddit_name : String) : String :=
  subreddit_name ++ "_stats.json"

/-- C9 (counterexample): for the subreddit name `"a b"` none of the three
scripts replaces the space in the subreddit name: each filename differs
from the one which the claimed space-to-underscore derivation would
produce. -/
theorem C9_counterexample :
    hot_output_file "a b" = "a b_hot_posts.json" ∧
    hot_output_file "a b" ≠ replaceSpaces "a b" ++ "_hot_posts.json" ∧
    stats_output_file "a b" ≠ replaceSpaces "a b" ++ "_stats.json" ∧
    search_output_file "a b" "q" ≠ replaceSpaces "a b" ++ "_search_q.json" := by
  refine ⟨rfl, ?_, ?_, ?_⟩ <;> decide

/-- C9 (amended): each script's output filename embeds the subreddit name
verbatim; only the query (in the search script) has its spaces replaced by
underscores, and the replaced query segment contains no space. -/
theorem C9_amended_thm (s q : String) :
    search_output_file s q = s ++ "_search_" ++ replaceSpaces q ++ ".json" ∧
    hot_output_file s = s ++ "_hot_posts.json" ∧
    stats_output_file s = s ++ "_stats.json" ∧
    ∀ ch ∈ (replaceSpaces q).data, ch ≠ ' ' := by
  refine ⟨rfl, rfl, rfl, ?_⟩
  intro ch hch
  have hch2 : ch ∈ q.data.map (fun c0 => if c0 = ' ' then '_' else c0) := hch
  obtain ⟨c0, -, hc⟩ := List.mem_map.mp hch2
  by_cases h : c0 = ' '
  · rw [if_pos h] at hc
    subst hc
    decide
  · rw [if_neg h] at hc
    subst hc
    exact h

end RedditClient
